import Mathlib

/-!
Verification development for the ai-gmail-kanban frontend's data-consistency
core: the token-refresh interceptor (src/lib/api/client.ts), the cross-tab
auth synchronizer (src/lib/auth), the push-driven invalidation handler
(InboxPage) and the stale-while-revalidate cached Gmail API facade
(gmail.cached.api).  Each definition is a shallow embedding of the
corresponding source function; asynchronous control flow is modelled as an
explicit event-step machine: within the JavaScript event loop each handler
segment between two await points runs atomically, so a segment becomes one
deterministic step.
-/

set_option linter.unusedVariables false

namespace GmailKanban

/-! ## String helpers (JavaScript String.prototype.includes) -/

/-- Does `pat` occur at the head of the character list? -/
def charsLeadWith : List Char → List Char → Bool
  | [], _ => true
  | _ :: _, [] => false
  | a :: as, b :: bs => a == b && charsLeadWith as bs

/-- Does `pat` occur anywhere in the character list? -/
def charsContain (pat : List Char) : List Char → Bool
  | [] => charsLeadWith pat []
  | c :: cs => charsLeadWith pat (c :: cs) || charsContain pat cs

/-- `url.includes(pat)` of JavaScript. -/
def strIncludes (s pat : String) : Bool :=
  charsContain pat.data s.data

/-! ## Auth state (src/lib/auth, unnamed/part_005) -/

/-- StoredUser of src/lib/auth (the `_id` field is rendered `id`). -/
structure StoredUser where
  id : String
  email : String
  name : Option String := none
  avatarUrl : Option String := none
  provider : String := "google"
  googleId : Option String := none
deriving DecidableEq

/-- AuthBroadcastMessage of src/lib/auth: the tagged union carried on the
`auth-sync` BroadcastChannel. -/
inductive AuthBroadcastMessage where
  | logout
  | login (user : StoredUser) (accessToken : String)
deriving DecidableEq

/-- The module-level auth state of src/lib/auth: the in-memory access token,
the expiry watcher timer (`some delay` when armed), the localStorage `user`
key, and the log of messages this tab has posted on the auth channel. -/
structure AuthState where
  accessTokenMemory : Option String
  accessExpiryTimer : Option Nat
  storedUser : Option StoredUser
  sentMessages : List AuthBroadcastMessage
deriving DecidableEq

/-- broadcastAuthChange: post a message on the channel (append to this tab's
send log). -/
def broadcastAuthChange (m : AuthBroadcastMessage) (s : AuthState) : AuthState :=
  { s with sentMessages := s.sentMessages ++ [m] }

/-- scheduleAccessExpiryWatcher: clear any existing timer, decode the
expiry claim of the in-memory token (`jwtExp`, the environment's
base64/JSON decoding of decodeJwtExp, best effort) and arm a timer for
`max 0 (expMs - now)` when a claim is present. -/
def scheduleAccessExpiryWatcher (jwtExp : String → Option Nat) (now : Nat)
    (s : AuthState) : AuthState :=
  match s.accessTokenMemory.bind jwtExp with
  | none => { s with accessExpiryTimer := none }
  | some expMs => { s with accessExpiryTimer := some (expMs - now) }

/-- setAccessToken: replace the in-memory token and reschedule the expiry
watcher. -/
def setAccessToken (jwtExp : String → Option Nat) (now : Nat)
    (token : Option String) (s : AuthState) : AuthState :=
  scheduleAccessExpiryWatcher jwtExp now { s with accessTokenMemory := token }

/-- setStoredUser: write or remove the localStorage `user` key. -/
def setStoredUser (user : Option StoredUser) (s : AuthState) : AuthState :=
  { s with storedUser := user }

/-- clearLocalAuth: clear all auth data locally WITHOUT broadcasting (drop
the token, remove the stored user, cancel the expiry timer). -/
def clearLocalAuth (s : AuthState) : AuthState :=
  { s with accessTokenMemory := none, storedUser := none, accessExpiryTimer := none }

/-- clearAllAuth: clearLocalAuth, then broadcast `logout` to other tabs. -/
def clearAllAuth (s : AuthState) : AuthState :=
  broadcastAuthChange .logout (clearLocalAuth s)

/-! ## The HTTP client with refresh interceptor (src/lib/api/client.ts) -/

/-- One axios request config: its URL, the `_retry` marker and the
Authorization header slot. -/
structure Request where
  id : Nat
  url : String
  retry : Bool
  authHeader : Option String
deriving DecidableEq

/-- isAuthEndpoint of client.ts (lines 50-53): endpoints exempt from the
401-retry logic, to avoid infinite refresh loops. -/
def isAuthEndpoint (url : String) : Bool :=
  strIncludes url "/api/auth/refresh" ||
  strIncludes url "/api/auth/logout" ||
  strIncludes url "/api/auth/google"

/-- The request interceptor (client.ts lines 34-41): attach
`Authorization: Bearer <token>` to the outgoing config whenever an access
token is held in memory; no endpoint is exempted. -/
def requestInterceptor (accessTokenMemory : Option String) (config : Request) : Request :=
  match accessTokenMemory with
  | some t => { config with authHeader := some ("Bearer " ++ t) }
  | none => config

/-- The request performTokenRefresh builds (client.ts lines 26-32): POST
/api/auth/refresh with an empty body and no explicit headers. -/
def refreshRequestConfig : Request :=
  { id := 0, url := "/api/auth/refresh", retry := false, authHeader := none }

/-- The refresh call's own outbound request, after it passes through the
request interceptor like every other request on this client. -/
def outboundRefreshRequest (accessTokenMemory : Option String) : Request :=
  requestInterceptor accessTokenMemory refreshRequestConfig

/-- How an interceptor promise settles for a request. -/
inductive ReqOutcome where
  | rejectedOriginal (errId : Nat)
  | rejectedRefreshError (errId : Nat)
deriving DecidableEq

/-- The process-wide mutable state of client.ts plus the logs an observer
of the process would see.  `refreshing = some r` models
`isRefreshing = true` with `r` the refresher's own (already `_retry`
marked) original request; `pendingRequests` holds the original requests
captured by the queued continuations. -/
structure ClientState where
  refreshing : Option Request
  pendingRequests : List Request
  auth : AuthState
  locationPath : String
  navigations : List String
  refreshCalls : Nat
  resubmissions : List Request
  outcomes : List (Nat × ReqOutcome)
deriving DecidableEq

/-- Events of the client's event loop: a response error delivered to the
response interceptor, and the settling of the in-flight
performTokenRefresh promise. -/
inductive ClientEvent where
  | respError (req : Request) (status : Option Nat) (errId : Nat)
  | refreshResolved (token : String)
  | refreshRejected (errId : Nat)

/-- Re-attach the renewed bearer token before resubmitting a request. -/
def withBearer (token : String) (r : Request) : Request :=
  { r with authHeader := some ("Bearer " ++ token) }

/-- One atomic segment of the response interceptor (client.ts lines
43-100).  A 401 on a non-auth endpoint not yet retried either becomes the
refresher (when no refresh is in flight) or enqueues a continuation; the
refresh promise settling runs the rest of the refresher's handler: on
success store the token, drain the queue in FIFO order and resubmit, on
failure clear all auth, redirect to /login unless already there and reject
the refresher's own request, the in-flight flag cleared in `finally`
either way.  On refresh failure the queued continuations are not touched:
the code neither calls nor clears `pendingRequests` there. -/
def clientStep (jwtExp : String → Option Nat) (now : Nat) (s : ClientState) :
    ClientEvent → ClientState
  | .respError req status errId =>
    if status = some 401 ∧ req.retry = false ∧ isAuthEndpoint req.url = false then
      let req2 : Request := { req with retry := true }
      match s.refreshing with
      | some _ => { s with pendingRequests := s.pendingRequests ++ [req2] }
      | none => { s with refreshing := some req2, refreshCalls := s.refreshCalls + 1 }
    else
      { s with outcomes := s.outcomes ++ [(req.id, .rejectedOriginal errId)] }
  | .refreshResolved token =>
    match s.refreshing with
    | none => s
    | some own =>
      { s with
          auth := setAccessToken jwtExp now (some token) s.auth,
          resubmissions := s.resubmissions ++ s.pendingRequests.map (withBearer token)
            ++ [withBearer token own],
          pendingRequests := [],
          refreshing := none }
  | .refreshRejected errId =>
    match s.refreshing with
    | none => s
    | some own =>
      { s with
          auth := clearAllAuth s.auth,
          locationPath := "/login",
          navigations :=
            if s.locationPath = "/login" then s.navigations
            else s.navigations ++ ["/login"],
          outcomes := s.outcomes ++ [(own.id, .rejectedRefreshError errId)],
          refreshing := none }

/-- Run a list of event-loop events. -/
def clientRun (jwtExp : String → Option Nat) (now : Nat) :
    ClientState → List ClientEvent → ClientState
  | s, [] => s
  | s, e :: es => clientRun jwtExp now (clientStep jwtExp now s e) es

/-- The client's state at module load. -/
def initialClientState : ClientState :=
  { refreshing := none
    pendingRequests := []
    auth := { accessTokenMemory := none, accessExpiryTimer := none,
              storedUser := none, sentMessages := [] }
    locationPath := "/inbox"
    navigations := []
    refreshCalls := 0
    resubmissions := []
    outcomes := [] }

/-- The event sequence of the single-flight scenario: N = 1 + rs.length
requests all fail with 401 while the refresh window opened by the first is
still in flight, then the refresh resolves with a renewed token. -/
def singleFlightEvents (r0 : Request) (rs : List Request) (t : String) :
    List ClientEvent :=
  ((r0 :: rs).map (fun r => ClientEvent.respError r (some 401) 0))
    ++ [ClientEvent.refreshResolved t]

/-! ## Persistent Local Store (Cache Manager) -/

/-- A mailbox payload; the core treats it as opaque beyond its id. -/
structure Mailbox where
  id : String
deriving DecidableEq

/-- One cached email-list page as stored by cacheEmailList: the items
array and the pagination meta (opaque). -/
structure EmailListEntry where
  data : List String
  meta : String
deriving DecidableEq

/-- Modelled from the spec: the Cache Manager over the Persistent Local
Store (src/lib/db/emailCache) is not among the provided sources, only its
callers are.  Per spec section 4.4 each operation is atomic at its key, a
miss returns an absent sentinel and writes overwrite wholesale; keys per
section 3 are the mailbox list, one email-list entry per
mailboxId/pageToken pair, and one entry per email id (details not needed
by the claims and omitted). -/
structure CacheStore where
  mailboxes : Option (List Mailbox)
  emailLists : List ((String × Option String) × EmailListEntry)
deriving DecidableEq

/-- Modelled from the spec: getCachedMailboxes, a plain keyed read. -/
def getCachedMailboxes (store : CacheStore) : Option (List Mailbox) :=
  store.mailboxes

/-- Modelled from the spec: cacheMailboxes, a wholesale overwrite. -/
def cacheMailboxes (store : CacheStore) (mbs : List Mailbox) : CacheStore :=
  { store with mailboxes := some mbs }

/-- Modelled from the spec: getCachedEmailList, keyed by the exact
mailbox id and page token (`none` = first page). -/
def getCachedEmailList (store : CacheStore) (mailboxId : String)
    (pageToken : Option String) : Option EmailListEntry :=
  (store.emailLists.find? (fun e => e.1 == (mailboxId, pageToken))).map (fun e => e.2)

/-- Modelled from the spec: cacheEmailList, a wholesale overwrite of the
entry at its exact key. -/
def cacheEmailList (store : CacheStore) (mailboxId : String)
    (pageToken : Option String) (entry : EmailListEntry) : CacheStore :=
  { store with emailLists :=
      ((mailboxId, pageToken), entry)
        :: store.emailLists.filter (fun e => !(e.1 == (mailboxId, pageToken))) }

/-- Modelled from the spec: invalidateAllEmailListsForMailbox removes
every email-list entry (spec section 4.6: "all email-list pages"). -/
def invalidateAllEmailListsForMailbox (store : CacheStore) : CacheStore :=
  { store with emailLists := [] }

/-- Modelled from the spec: invalidateMailboxes removes the mailbox-list
entry. -/
def invalidateMailboxes (store : CacheStore) : CacheStore :=
  { store with mailboxes := none }

/-! ## Push-driven invalidation (handleGmailNotification, InboxPage) -/

/-- A Gmail push notification payload; the handler never inspects it. -/
structure GmailNotification where
  emailAddress : String
  historyId : Nat
deriving DecidableEq

/-- The observable actions of handleGmailNotification, in completion
order. -/
inductive PushAction where
  | storeInvalidateEmailLists
  | storeInvalidateMailboxes
  | queryInvalidate (queryKey : String)
deriving DecidableEq

/-- handleGmailNotification (InboxPage): STEP 1 awaits
`Promise.all([invalidateAllEmailListsForMailbox(), invalidateMailboxes()])`,
so both store invalidations complete before STEP 2 fires the three React
Query invalidations.  The two store invalidations run concurrently with
each other; listing them in source order is harmless, since only their
joint completion before any query action is claimed. -/
def handleGmailNotification (notification : GmailNotification) : List PushAction :=
  [ .storeInvalidateEmailLists, .storeInvalidateMailboxes,
    .queryInvalidate "emails", .queryInvalidate "mailboxes",
    .queryInvalidate "kanban-emails" ]

/-- Effect of one push action on the Persistent Local Store (React Query
invalidation does not touch that store). -/
def applyPushAction (store : CacheStore) : PushAction → CacheStore
  | .storeInvalidateEmailLists => invalidateAllEmailListsForMailbox store
  | .storeInvalidateMailboxes => invalidateMailboxes store
  | .queryInvalidate _ => store

/-! ## Stale-while-revalidate facade (gmail.cached.api, unnamed/part_004) -/

/-- The data envelope of the mailbox-list endpoint. -/
structure MailboxData where
  mailboxes : List Mailbox
deriving DecidableEq

/-- MailboxResponse: the `{status, data}` envelope. -/
structure MailboxResponse where
  status : String
  data : MailboxData
deriving DecidableEq

/-- MailboxEmailsResponse: the `{status, data: {data, meta}}` envelope. -/
structure MailboxEmailsResponse where
  status : String
  data : EmailListEntry
deriving DecidableEq

/-- The observable outcome of one cached read.  `returned` is what the
caller's awaited promise settles with; `awaitedFetch` records whether that
settling waited for the live fetch; `storeAfter` is the store once the
(possibly background, fire-and-forget) live fetch has itself settled, its
eventual result being the `live` parameter of the read. -/
structure SWROutcome (α : Type) where
  returned : Except String α
  fetchIssued : Bool
  awaitedFetch : Bool
  storeAfter : CacheStore

/-- getMailboxesCached (part_004 lines 52-78): on a cache hit return the
cached payload at once and let the live fetch update the cache in the
background, a failure there only logged; on a miss await the live fetch,
cache and return it, propagating its failure. -/
def getMailboxesCached (store : CacheStore)
    (live : Except String MailboxResponse) : SWROutcome MailboxResponse :=
  match getCachedMailboxes store with
  | some cachedData =>
    { returned := .ok { status := "success", data := { mailboxes := cachedData } }
      fetchIssued := true
      awaitedFetch := false
      storeAfter :=
        match live with
        | .ok resp => cacheMailboxes store resp.data.mailboxes
        | .error _ => store }
  | none =>
    match live with
    | .ok resp =>
      { returned := .ok resp, fetchIssued := true, awaitedFetch := true,
        storeAfter := cacheMailboxes store resp.data.mailboxes }
    | .error e =>
      { returned := .error e, fetchIssued := true, awaitedFetch := true,
        storeAfter := store }

/-- getMailboxEmailsInfiniteCached (part_004 lines 87-152): first page
with a cache hit behaves stale-while-revalidate; any other page (or a
first-page miss) awaits the live fetch, caches and returns it on success,
and on failure serves the cached copy for that exact mailboxId/pageToken
key when one exists, else propagates the failure.  `pageSize` is passed
through to the live call and does not affect control flow. -/
def getMailboxEmailsInfiniteCached (store : CacheStore) (mailboxId : String)
    (pageToken : Option String) (pageSize : Nat)
    (live : Except String MailboxEmailsResponse) : SWROutcome MailboxEmailsResponse :=
  let cached := getCachedEmailList store mailboxId pageToken
  let isFirstPage := pageToken.isNone
  match isFirstPage, cached with
  | true, some entry =>
    { returned := .ok { status := "success", data := entry }
      fetchIssued := true
      awaitedFetch := false
      storeAfter :=
        match live with
        | .ok resp => cacheEmailList store mailboxId pageToken resp.data
        | .error _ => store }
  | _, _ =>
    match live with
    | .ok resp =>
      { returned := .ok resp, fetchIssued := true, awaitedFetch := true,
        storeAfter := cacheEmailList store mailboxId pageToken resp.data }
    | .error e =>
      match cached with
      | some entry =>
        { returned := .ok { status := "success", data := entry },
          fetchIssued := true, awaitedFetch := true, storeAfter := store }
      | none =>
        { returned := .error e, fetchIssued := true, awaitedFetch := true,
          storeAfter := store }

/-! ## AuthContext broadcast handling (src/context/AuthContext.tsx) -/

/-- One tab's state relevant to the broadcast handler: the module-level
auth state, the React `user` state and a count of `queryClient.clear()`
calls. -/
structure TabState where
  auth : AuthState
  userState : Option StoredUser
  queryClearCount : Nat
deriving DecidableEq

/-- handleAuthBroadcast (AuthContext.tsx lines 125-137): on `logout`
clear local state without re-broadcasting (clearLocalAuth, drop the user
state, clear the query cache); on `login` adopt the user into React state
and the access token into memory — nothing is written to localStorage. -/
def handleAuthBroadcast (jwtExp : String → Option Nat) (now : Nat)
    (s : TabState) : AuthBroadcastMessage → TabState
  | .logout =>
    { auth := clearLocalAuth s.auth
      userState := none
      queryClearCount := s.queryClearCount + 1 }
  | .login user accessToken =>
    { s with
        userState := some user
        auth := setAccessToken jwtExp now (some accessToken) s.auth }

/-! ## Helper lemmas -/

theorem scheduleAccessExpiryWatcher_storedUser (jwtExp : String → Option Nat)
    (now : Nat) (s : AuthState) :
    (scheduleAccessExpiryWatcher jwtExp now s).storedUser = s.storedUser := by
  unfold scheduleAccessExpiryWatcher
  cases s.accessTokenMemory.bind jwtExp <;> rfl

theorem scheduleAccessExpiryWatcher_accessTokenMemory (jwtExp : String → Option Nat)
    (now : Nat) (s : AuthState) :
    (scheduleAccessExpiryWatcher jwtExp now s).accessTokenMemory = s.accessTokenMemory := by
  unfold scheduleAccessExpiryWatcher
  cases s.accessTokenMemory.bind jwtExp <;> rfl

theorem scheduleAccessExpiryWatcher_sentMessages (jwtExp : String → Option Nat)
    (now : Nat) (s : AuthState) :
    (scheduleAccessExpiryWatcher jwtExp now s).sentMessages = s.sentMessages := by
  unfold scheduleAccessExpiryWatcher
  cases s.accessTokenMemory.bind jwtExp <;> rfl

theorem setAccessToken_storedUser (jwtExp : String → Option Nat) (now : Nat)
    (token : Option String) (s : AuthState) :
    (setAccessToken jwtExp now token s).storedUser = s.storedUser := by
  unfold setAccessToken
  rw [scheduleAccessExpiryWatcher_storedUser]

theorem setAccessToken_accessTokenMemory (jwtExp : String → Option Nat) (now : Nat)
    (token : Option String) (s : AuthState) :
    (setAccessToken jwtExp now token s).accessTokenMemory = token := by
  unfold setAccessToken
  rw [scheduleAccessExpiryWatcher_accessTokenMemory]

theorem setAccessToken_sentMessages (jwtExp : String → Option Nat) (now : Nat)
    (token : Option String) (s : AuthState) :
    (setAccessToken jwtExp now token s).sentMessages = s.sentMessages := by
  unfold setAccessToken
  rw [scheduleAccessExpiryWatcher_sentMessages]

/-! ## Claim theorems -/

/-- C6: a 401 response to an auth endpoint (refresh, logout, OAuth login)
or to a request already retried once is propagated to the caller untouched
— the only state change is the recorded rejection with the original error
— so it never starts a (nested) refresh attempt. -/
theorem c6_auth_endpoint_401_propagates_untouched
    (jwtExp : String → Option Nat) (now : Nat) (s : ClientState)
    (req : Request) (errId : Nat)
    (h : isAuthEndpoint req.url = true ∨ req.retry = true) :
    clientStep jwtExp now s (.respError req (some 401) errId) =
      { s with outcomes := s.outcomes ++ [(req.id, .rejectedOriginal errId)] } := by
  rcases h with h | h <;> simp [clientStep, h]

theorem c6_auth_endpoint_401_propagates_untouched_witness :
    clientStep (fun _ => none) 0 initialClientState
      (.respError ⟨7, "/api/auth/refresh", false, none⟩ (some 401) 3) =
      { initialClientState with
          outcomes := initialClientState.outcomes ++ [(7, .rejectedOriginal 3)] } :=
  c6_auth_endpoint_401_propagates_untouched (fun _ => none) 0 initialClientState
    ⟨7, "/api/auth/refresh", false, none⟩ 3 (Or.inl (by decide))

/-- C7, counterexample: the claim says the refresh endpoint's own outbound
request never carries the Authorization bearer header, but the request
interceptor exempts no endpoint — with an access token in memory (the
usual situation when a 401 triggers a refresh) the refresh call itself
goes out with `Authorization: Bearer <stale token>`. -/
theorem c7_refresh_request_bearer_counterexample :
    ¬ (outboundRefreshRequest (some "staleToken")).authHeader = none := by
  decide

/-- C7, amended: the refresh call's outbound request carries the bearer
header exactly when an access token is held in memory (none is attached at
bootstrap, when memory is empty); the refresh credential itself travels in
the HTTP-only cookie, and the refresh endpoint's loop protection is its
exemption from the 401-retry interceptor, not from header attachment. -/
theorem c7_refresh_request_bearer_amended (accessTokenMemory : Option String) :
    (outboundRefreshRequest accessTokenMemory).authHeader
        = accessTokenMemory.map (fun t => "Bearer " ++ t) ∧
    isAuthEndpoint refreshRequestConfig.url = true := by
  constructor
  · cases accessTokenMemory <;> rfl
  · decide

/-- C8: on a cross-tab `logout` broadcast the receiving tab clears its
in-memory token, stored user, expiry watcher and React user state, and its
own send log is unchanged — it broadcasts nothing, so one logout broadcast
can never cause a second. -/
theorem c8_cross_tab_logout_no_rebroadcast
    (jwtExp : String → Option Nat) (now : Nat) (s : TabState) :
    (handleAuthBroadcast jwtExp now s .logout).auth.sentMessages = s.auth.sentMessages ∧
    (handleAuthBroadcast jwtExp now s .logout).auth.accessTokenMemory = none ∧
    (handleAuthBroadcast jwtExp now s .logout).auth.storedUser = none ∧
    (handleAuthBroadcast jwtExp now s .logout).auth.accessExpiryTimer = none ∧
    (handleAuthBroadcast jwtExp now s .logout).userState = none :=
  ⟨rfl, rfl, rfl, rfl, rfl⟩

/-- C10: on a cross-tab `login` broadcast the receiving tab adopts the
user into React state and the token into memory, but the persisted
localStorage `user` key is untouched (identical before and after), so the
adopted session is not durable in the receiving tab; it also broadcasts
nothing and leaves its query cache alone. -/
theorem c10_cross_tab_login_localStorage_frame
    (jwtExp : String → Option Nat) (now : Nat) (s : TabState)
    (user : StoredUser) (accessToken : String) :
    (handleAuthBroadcast jwtExp now s (.login user accessToken)).auth.storedUser
        = s.auth.storedUser ∧
    (handleAuthBroadcast jwtExp now s (.login user accessToken)).userState = some user ∧
    (handleAuthBroadcast jwtExp now s (.login user accessToken)).auth.accessTokenMemory
        = some accessToken ∧
    (handleAuthBroadcast jwtExp now s (.login user accessToken)).auth.sentMessages
        = s.auth.sentMessages ∧
    (handleAuthBroadcast jwtExp now s (.login user accessToken)).queryClearCount
        = s.queryClearCount := by
  refine ⟨?_, rfl, ?_, ?_, rfl⟩
  · exact setAccessToken_storedUser jwtExp now (some accessToken) s.auth
  · exact setAccessToken_accessTokenMemory jwtExp now (some accessToken) s.auth
  · exact setAccessToken_sentMessages jwtExp now (some accessToken) s.auth

/-- C5: when the refresh call itself fails, the interceptor clears all
local auth state (token, stored user, expiry watcher — and broadcasts the
logout, as clearAllAuth does), redirects to /login unless already there,
records the rejection of the refresher's own request with the refresh
error, and the in-flight flag is cleared — as it also is on refresh
success, i.e. regardless of outcome. -/
theorem c5_refresh_failure_clears_and_redirects
    (jwtExp : String → Option Nat) (now : Nat) (s : ClientState)
    (own : Request) (errId : Nat)
    (h : s.refreshing = some own) :
    (clientStep jwtExp now s (.refreshRejected errId)).auth.accessTokenMemory = none ∧
    (clientStep jwtExp now s (.refreshRejected errId)).auth.storedUser = none ∧
    (clientStep jwtExp now s (.refreshRejected errId)).auth.accessExpiryTimer = none ∧
    (clientStep jwtExp now s (.refreshRejected errId)).auth.sentMessages
        = s.auth.sentMessages ++ [AuthBroadcastMessage.logout] ∧
    (clientStep jwtExp now s (.refreshRejected errId)).navigations
        = (if s.locationPath = "/login" then s.navigations
           else s.navigations ++ ["/login"]) ∧
    (clientStep jwtExp now s (.refreshRejected errId)).locationPath = "/login" ∧
    (clientStep jwtExp now s (.refreshRejected errId)).outcomes
        = s.outcomes ++ [(own.id, ReqOutcome.rejectedRefreshError errId)] ∧
    (clientStep jwtExp now s (.refreshRejected errId)).refreshing = none ∧
    (∀ t, (clientStep jwtExp now s (.refreshResolved t)).refreshing = none) := by
  refine ⟨?_, ?_, ?_, ?_, ?_, ?_, ?_, ?_, ?_⟩ <;>
    simp [clientStep, h, clearAllAuth, clearLocalAuth, broadcastAuthChange]

/-- C5 at a concrete in-flight state: the refresher's own request is
rejected with the refresh error, the flag drops and the tab navigates to
/login. -/
theorem c5_refresh_failure_clears_and_redirects_witness :
    (clientStep (fun _ => none) 0
      ⟨some ⟨1, "/api/gmail/mailboxes", true, none⟩, [],
        ⟨some "oldTok", none, some ⟨"u1", "u@example.com", none, none, "google", none⟩, []⟩,
        "/inbox", [], 1, [], []⟩
      (.refreshRejected 9)).outcomes = [(1, ReqOutcome.rejectedRefreshError 9)] ∧
    (clientStep (fun _ => none) 0
      ⟨some ⟨1, "/api/gmail/mailboxes", true, none⟩, [],
        ⟨some "oldTok", none, some ⟨"u1", "u@example.com", none, none, "google", none⟩, []⟩,
        "/inbox", [], 1, [], []⟩
      (.refreshRejected 9)).navigations = ["/login"] := by
  have h := c5_refresh_failure_clears_and_redirects (fun _ => none) 0
    ⟨some ⟨1, "/api/gmail/mailboxes", true, none⟩, [],
      ⟨some "oldTok", none, some ⟨"u1", "u@example.com", none, none, "google", none⟩, []⟩,
      "/inbox", [], 1, [], []⟩
    ⟨1, "/api/gmail/mailboxes", true, none⟩ 9 rfl
  refine ⟨h.2.2.2.2.2.2.1, ?_⟩
  rw [h.2.2.2.2.1]
  decide

/-- C9: when a refresh fails while requests are queued behind it, the
failed cycle's remaining step (catch plus finally) leaves the queued
continuations dangling — the pending queue is not drained or cleared, no
queued request is resubmitted, and the only settlement recorded is the
refresher's own rejection. -/
theorem c9_failed_refresh_leaves_queue_dangling
    (jwtExp : String → Option Nat) (now : Nat) (s : ClientState)
    (own : Request) (errId : Nat)
    (h : s.refreshing = some own) :
    (clientStep jwtExp now s (.refreshRejected errId)).pendingRequests
        = s.pendingRequests ∧
    (clientStep jwtExp now s (.refreshRejected errId)).resubmissions
        = s.resubmissions ∧
    (clientStep jwtExp now s (.refreshRejected errId)).outcomes
        = s.outcomes ++ [(own.id, ReqOutcome.rejectedRefreshError errId)] := by
  refine ⟨?_, ?_, ?_⟩ <;> simp [clientStep, h]

/-- C9 at a concrete state with two queued continuations: both stay in the
queue, unresubmitted and unsettled. -/
theorem c9_failed_refresh_leaves_queue_dangling_witness :
    (clientStep (fun _ => none) 0
      ⟨some ⟨1, "/api/gmail/mailboxes", true, none⟩,
        [⟨2, "/api/gmail/emails", true, none⟩, ⟨3, "/api/kanban", true, none⟩],
        ⟨some "oldTok", none, none, []⟩, "/inbox", [], 1, [], []⟩
      (.refreshRejected 9)).pendingRequests
      = [⟨2, "/api/gmail/emails", true, none⟩, ⟨3, "/api/kanban", true, none⟩] ∧
    (clientStep (fun _ => none) 0
      ⟨some ⟨1, "/api/gmail/mailboxes", true, none⟩,
        [⟨2, "/api/gmail/emails", true, none⟩, ⟨3, "/api/kanban", true, none⟩],
        ⟨some "oldTok", none, none, []⟩, "/inbox", [], 1, [], []⟩
      (.refreshRejected 9)).resubmissions = [] := by
  have h := c9_failed_refresh_leaves_queue_dangling (fun _ => none) 0
    ⟨some ⟨1, "/api/gmail/mailboxes", true, none⟩,
      [⟨2, "/api/gmail/emails", true, none⟩, ⟨3, "/api/kanban", true, none⟩],
      ⟨some "oldTok", none, none, []⟩, "/inbox", [], 1, [], []⟩
    ⟨1, "/api/gmail/mailboxes", true, none⟩ 9 rfl
  exact ⟨h.1, h.2.1⟩

/-- C2: the push handler's action trace is identical for every
notification payload; at every point of the trace where a higher-level
query-cache refetch signal fires, the Persistent Local Store's
mailbox-list entry and all email-list entries are already invalidated (the
two store invalidations complete first, the reverse order never occurs);
and refetch signals do fire. -/
theorem c2_push_invalidation_before_refetch
    (notification : GmailNotification) (store : CacheStore) :
    (∀ n2, handleGmailNotification n2 = handleGmailNotification notification) ∧
    (∀ pre k post,
      handleGmailNotification notification = pre ++ PushAction.queryInvalidate k :: post →
        (pre.foldl applyPushAction store).mailboxes = none ∧
        (pre.foldl applyPushAction store).emailLists = []) ∧
    PushAction.queryInvalidate "emails" ∈ handleGmailNotification notification := by
  refine ⟨fun n2 => rfl, ?_, by simp [handleGmailNotification]⟩
  intro pre k post h
  simp only [handleGmailNotification] at h
  rcases pre with _ | ⟨x1, pre⟩
  · simp at h
  rcases pre with _ | ⟨x2, pre⟩
  · simp at h
  rcases pre with _ | ⟨x3, pre⟩
  · simp at h
    obtain ⟨h1, h2, -⟩ := h
    subst h1
    subst h2
    exact ⟨rfl, rfl⟩
  rcases pre with _ | ⟨x4, pre⟩
  · simp at h
    obtain ⟨h1, h2, h3, -⟩ := h
    subst h1
    subst h2
    subst h3
    exact ⟨rfl, rfl⟩
  rcases pre with _ | ⟨x5, pre⟩
  · simp at h
    obtain ⟨h1, h2, h3, h4, -⟩ := h
    subst h1
    subst h2
    subst h3
    subst h4
    exact ⟨rfl, rfl⟩
  · simp at h

/-- C2 at a concrete populated store and notification: after the two store
invalidations that precede the first refetch signal, both entries are
gone. -/
theorem c2_push_invalidation_before_refetch_witness :
    (([PushAction.storeInvalidateEmailLists,
        PushAction.storeInvalidateMailboxes].foldl applyPushAction
        ⟨some [⟨"INBOX"⟩], [(("INBOX", none), ⟨["m1", "m2"], "meta1"⟩)]⟩).mailboxes
      = none) ∧
    (([PushAction.storeInvalidateEmailLists,
        PushAction.storeInvalidateMailboxes].foldl applyPushAction
        ⟨some [⟨"INBOX"⟩], [(("INBOX", none), ⟨["m1", "m2"], "meta1"⟩)]⟩).emailLists
      = []) :=
  (c2_push_invalidation_before_refetch ⟨"u@example.com", 42⟩
      ⟨some [⟨"INBOX"⟩], [(("INBOX", none), ⟨["m1", "m2"], "meta1"⟩)]⟩).2.1
    [PushAction.storeInvalidateEmailLists, PushAction.storeInvalidateMailboxes]
    "emails"
    [PushAction.queryInvalidate "mailboxes", PushAction.queryInvalidate "kanban-emails"]
    rfl

/-- C3: a mailbox-list read with a populated cache entry returns the
cached payload immediately — the returned value does not await and does
not depend on the live fetch's outcome, so no error surfaces — while the
background fetch overwrites the cache entry on success and leaves it
unchanged on failure. -/
theorem c3_mailboxes_cache_first_network_second
    (store : CacheStore) (cachedData : List Mailbox)
    (live : Except String MailboxResponse)
    (h : store.mailboxes = some cachedData) :
    (getMailboxesCached store live).returned
        = .ok { status := "success", data := { mailboxes := cachedData } } ∧
    (getMailboxesCached store live).awaitedFetch = false ∧
    (∀ live2, (getMailboxesCached store live2).returned
        = (getMailboxesCached store live).returned) ∧
    (∀ resp, live = .ok resp →
      (getMailboxesCached store live).storeAfter
        = cacheMailboxes store resp.data.mailboxes) ∧
    (∀ e, live = .error e → (getMailboxesCached store live).storeAfter = store) := by
  refine ⟨?_, ?_, ?_, ?_, ?_⟩
  · simp [getMailboxesCached, getCachedMailboxes, h]
  · simp [getMailboxesCached, getCachedMailboxes, h]
  · intro live2
    simp [getMailboxesCached, getCachedMailboxes, h]
  · intro resp hresp
    subst hresp
    simp [getMailboxesCached, getCachedMailboxes, h]
  · intro e he
    subst he
    simp [getMailboxesCached, getCachedMailboxes, h]

/-- C3 at a concrete store whose live fetch fails: the cached mailbox list
is served and the entry survives untouched. -/
theorem c3_mailboxes_cache_first_network_second_witness :
    (getMailboxesCached ⟨some [⟨"INBOX"⟩, ⟨"SENT"⟩], []⟩ (.error "network down")).returned
        = .ok { status := "success", data := { mailboxes := [⟨"INBOX"⟩, ⟨"SENT"⟩] } } ∧
    (getMailboxesCached ⟨some [⟨"INBOX"⟩, ⟨"SENT"⟩], []⟩ (.error "network down")).storeAfter
        = ⟨some [⟨"INBOX"⟩, ⟨"SENT"⟩], []⟩ := by
  have h := c3_mailboxes_cache_first_network_second
    ⟨some [⟨"INBOX"⟩, ⟨"SENT"⟩], []⟩ [⟨"INBOX"⟩, ⟨"SENT"⟩] (.error "network down") rfl
  exact ⟨h.1, h.2.2.2.2 "network down" rfl⟩

/-- C4: an email-list read for a page beyond the first always performs and
awaits the live fetch; on success the live page is cached and returned; on
failure the cached copy for that exact mailbox-id and page-token key is
returned with no error surfaced when it exists, and the failure is
propagated when it does not. -/
theorem c4_paginated_always_live_with_fallback
    (store : CacheStore) (mailboxId : String) (tok : String) (pageSize : Nat)
    (live : Except String MailboxEmailsResponse) :
    (getMailboxEmailsInfiniteCached store mailboxId (some tok) pageSize live).fetchIssued
        = true ∧
    (getMailboxEmailsInfiniteCached store mailboxId (some tok) pageSize live).awaitedFetch
        = true ∧
    (∀ resp, live = .ok resp →
      (getMailboxEmailsInfiniteCached store mailboxId (some tok) pageSize live).returned
          = .ok resp ∧
      (getMailboxEmailsInfiniteCached store mailboxId (some tok) pageSize live).storeAfter
          = cacheEmailList store mailboxId (some tok) resp.data) ∧
    (∀ e, live = .error e →
      (∀ entry, getCachedEmailList store mailboxId (some tok) = some entry →
        (getMailboxEmailsInfiniteCached store mailboxId (some tok) pageSize live).returned
            = .ok { status := "success", data := entry }) ∧
      (getCachedEmailList store mailboxId (some tok) = none →
        (getMailboxEmailsInfiniteCached store mailboxId (some tok) pageSize live).returned
            = .error e)) := by
  refine ⟨?_, ?_, ?_, ?_⟩
  · cases hlive : live <;>
      cases hc : getCachedEmailList store mailboxId (some tok) <;>
      simp [getMailboxEmailsInfiniteCached, hc, hlive]
  · cases hlive : live <;>
      cases hc : getCachedEmailList store mailboxId (some tok) <;>
      simp [getMailboxEmailsInfiniteCached, hc, hlive]
  · intro resp hresp
    subst hresp
    cases hc : getCachedEmailList store mailboxId (some tok) <;>
      simp [getMailboxEmailsInfiniteCached, hc]
  · intro e he
    subst he
    constructor
    · intro entry hc
      simp [getMailboxEmailsInfiniteCached, hc]
    · intro hc
      simp [getMailboxEmailsInfiniteCached, hc]

/-- C4 at a concrete store holding page "p2" of INBOX with a failing live
fetch: the cached page is served with no error. -/
theorem c4_paginated_always_live_with_fallback_witness :
    (getMailboxEmailsInfiniteCached
        ⟨none, [(("INBOX", some "p2"), ⟨["m7", "m8"], "meta2"⟩)]⟩
        "INBOX" (some "p2") 20 (.error "offline")).returned
      = .ok { status := "success", data := ⟨["m7", "m8"], "meta2"⟩ } ∧
    (getMailboxEmailsInfiniteCached
        ⟨none, [(("INBOX", some "p2"), ⟨["m7", "m8"], "meta2"⟩)]⟩
        "INBOX" (some "p2") 20 (.error "offline")).awaitedFetch = true := by
  have h := c4_paginated_always_live_with_fallback
    ⟨none, [(("INBOX", some "p2"), ⟨["m7", "m8"], "meta2"⟩)]⟩
    "INBOX" "p2" 20 (.error "offline")
  refine ⟨?_, h.2.1⟩
  exact (h.2.2.2 "offline" rfl).1 ⟨["m7", "m8"], "meta2"⟩ (by decide)

theorem clientRun_append (jwtExp : String → Option Nat) (now : Nat)
    (es1 es2 : List ClientEvent) :
    ∀ s, clientRun jwtExp now s (es1 ++ es2)
      = clientRun jwtExp now (clientRun jwtExp now s es1) es2 := by
  induction es1 with
  | nil => intro s; rfl
  | cons e es ih => intro s; exact ih (clientStep jwtExp now s e)

theorem clientRun_queued_401s (jwtExp : String → Option Nat) (now : Nat)
    (x : Request) :
    ∀ rs : List Request,
      (∀ r ∈ rs, r.retry = false ∧ isAuthEndpoint r.url = false) →
      ∀ s : ClientState, s.refreshing = some x →
        clientRun jwtExp now s
            (rs.map fun r => ClientEvent.respError r (some 401) 0)
          = { s with pendingRequests :=
                s.pendingRequests ++ rs.map fun r => { r with retry := true } } := by
  intro rs
  induction rs with
  | nil =>
    intro _ s hs
    simp [clientRun]
  | cons r rs ih =>
    intro h s hs
    have hr := h r (List.mem_cons_self r rs)
    have hrs : ∀ r2 ∈ rs, r2.retry = false ∧ isAuthEndpoint r2.url = false :=
      fun r2 hm => h r2 (List.mem_cons_of_mem r hm)
    have hstep : clientStep jwtExp now s (ClientEvent.respError r (some 401) 0)
        = { s with pendingRequests := s.pendingRequests ++ [{ r with retry := true }] } := by
      simp [clientStep, hr.1, hr.2, hs]
    have hrest := ih hrs
      { s with pendingRequests := s.pendingRequests ++ [{ r with retry := true }] } hs
    calc clientRun jwtExp now s
          ((r :: rs).map fun r2 => ClientEvent.respError r2 (some 401) 0)
        = clientRun jwtExp now
            (clientStep jwtExp now s (ClientEvent.respError r (some 401) 0))
            (rs.map fun r2 => ClientEvent.respError r2 (some 401) 0) := rfl
      _ = clientRun jwtExp now
            { s with pendingRequests := s.pendingRequests ++ [{ r with retry := true }] }
            (rs.map fun r2 => ClientEvent.respError r2 (some 401) 0) := by rw [hstep]
      _ = { s with pendingRequests :=
              (s.pendingRequests ++ [{ r with retry := true }])
                ++ rs.map fun r2 => { r2 with retry := true } } := hrest
      _ = { s with pendingRequests :=
              s.pendingRequests ++ (r :: rs).map fun r2 => { r2 with retry := true } } := by
            simp

/-- C1: a refresh call is only ever issued when no refresh is in flight
(so at most one is in flight at any time), and in the single-flight
scenario — N requests failing with 401 on non-auth, not-yet-retried
endpoints while the window opened by the first is in flight, then the
refresh resolving with token `t` — exactly one refresh call is issued, the
renewed token is stored, the queue fully drains, and every one of the N
requests is resubmitted carrying the same renewed bearer token. -/
theorem c1_single_flight_refresh (jwtExp : String → Option Nat) (now : Nat)
    (s0 : ClientState) (r0 : Request) (rs : List Request) (t : String)
    (h0 : s0.refreshing = none)
    (hr0 : r0.retry = false ∧ isAuthEndpoint r0.url = false)
    (hrs : ∀ r ∈ rs, r.retry = false ∧ isAuthEndpoint r.url = false) :
    (∀ s e, (clientStep jwtExp now s e).refreshCalls = s.refreshCalls ∨
      ((clientStep jwtExp now s e).refreshCalls = s.refreshCalls + 1 ∧
        s.refreshing = none)) ∧
    (clientRun jwtExp now s0 (singleFlightEvents r0 rs t)).refreshCalls
        = s0.refreshCalls + 1 ∧
    (clientRun jwtExp now s0 (singleFlightEvents r0 rs t)).auth.accessTokenMemory
        = some t ∧
    (clientRun jwtExp now s0 (singleFlightEvents r0 rs t)).refreshing = none ∧
    (clientRun jwtExp now s0 (singleFlightEvents r0 rs t)).pendingRequests = [] ∧
    (∀ r ∈ r0 :: rs, withBearer t { r with retry := true }
        ∈ (clientRun jwtExp now s0 (singleFlightEvents r0 rs t)).resubmissions) := by
  have hexcl : ∀ s e, (clientStep jwtExp now s e).refreshCalls = s.refreshCalls ∨
      ((clientStep jwtExp now s e).refreshCalls = s.refreshCalls + 1 ∧
        s.refreshing = none) := by
    intro s e
    cases e with
    | respError req status errId =>
      by_cases hc : status = some 401 ∧ req.retry = false ∧ isAuthEndpoint req.url = false
      · rcases hsr : s.refreshing with _ | x
        · right
          exact ⟨by simp [clientStep, hc, hsr], by simp [hsr]⟩
        · left
          simp [clientStep, hc, hsr]
      · left
        simp [clientStep, hc]
    | refreshResolved token =>
      left
      rcases hsr : s.refreshing with _ | x <;> simp [clientStep, hsr]
    | refreshRejected errId =>
      left
      rcases hsr : s.refreshing with _ | x <;> simp [clientStep, hsr]
  have hstep0 : clientStep jwtExp now s0 (ClientEvent.respError r0 (some 401) 0)
      = { s0 with refreshing := some { r0 with retry := true },
                  refreshCalls := s0.refreshCalls + 1 } := by
    simp [clientStep, hr0.1, hr0.2, h0]
  have hqueue := clientRun_queued_401s jwtExp now { r0 with retry := true } rs hrs
    { s0 with refreshing := some { r0 with retry := true },
              refreshCalls := s0.refreshCalls + 1 } rfl
  have hfinal : clientRun jwtExp now s0 (singleFlightEvents r0 rs t)
      = clientStep jwtExp now
          { s0 with refreshing := some { r0 with retry := true },
                    refreshCalls := s0.refreshCalls + 1,
                    pendingRequests :=
                      s0.pendingRequests ++ rs.map fun r => { r with retry := true } }
          (ClientEvent.refreshResolved t) := by
    calc clientRun jwtExp now s0 (singleFlightEvents r0 rs t)
        = clientRun jwtExp now
            (clientStep jwtExp now s0 (ClientEvent.respError r0 (some 401) 0))
            ((rs.map fun r => ClientEvent.respError r (some 401) 0)
              ++ [ClientEvent.refreshResolved t]) := rfl
      _ = clientRun jwtExp now
            (clientRun jwtExp now
              (clientStep jwtExp now s0 (ClientEvent.respError r0 (some 401) 0))
              (rs.map fun r => ClientEvent.respError r (some 401) 0))
            [ClientEvent.refreshResolved t] := by
            rw [clientRun_append]
      _ = clientRun jwtExp now
            (clientRun jwtExp now
              { s0 with refreshing := some { r0 with retry := true },
                        refreshCalls := s0.refreshCalls + 1 }
              (rs.map fun r => ClientEvent.respError r (some 401) 0))
            [ClientEvent.refreshResolved t] := by
            rw [hstep0]
      _ = clientStep jwtExp now
            { s0 with refreshing := some { r0 with retry := true },
                      refreshCalls := s0.refreshCalls + 1,
                      pendingRequests :=
                        s0.pendingRequests ++ rs.map fun r => { r with retry := true } }
            (ClientEvent.refreshResolved t) := by
            rw [hqueue]
            rfl
  refine ⟨hexcl, ?_, ?_, ?_, ?_, ?_⟩
  · rw [hfinal]
    simp [clientStep]
  · rw [hfinal]
    simp [clientStep, setAccessToken_accessTokenMemory]
  · rw [hfinal]
    simp [clientStep]
  · rw [hfinal]
    simp [clientStep]
  · intro r hr
    rw [hfinal]
    rcases List.mem_cons.mp hr with rfl | hmem
    · simp [clientStep]
    · show withBearer t { r with retry := true } ∈
        s0.resubmissions
          ++ (s0.pendingRequests
                ++ rs.map (fun r2 : Request =>
                    ({ r2 with retry := true } : Request))).map (withBearer t)
          ++ [withBearer t ({ r0 with retry := true } : Request)]
      refine List.mem_append.mpr (Or.inl (List.mem_append.mpr (Or.inr ?_)))
      exact List.mem_map_of_mem _
        (List.mem_append.mpr (Or.inr (List.mem_map_of_mem _ hmem)))

/-- C1 at a concrete scenario: two requests fail with 401 concurrently,
one refresh is issued, both are resubmitted with the renewed token. -/
theorem c1_single_flight_refresh_witness :
    (clientRun (fun _ => none) 0 initialClientState
        (singleFlightEvents ⟨1, "/api/gmail/mailboxes", false, none⟩
          [⟨2, "/api/gmail/emails", false, none⟩] "newTok")).refreshCalls
      = initialClientState.refreshCalls + 1 ∧
    (clientRun (fun _ => none) 0 initialClientState
        (singleFlightEvents ⟨1, "/api/gmail/mailboxes", false, none⟩
          [⟨2, "/api/gmail/emails", false, none⟩] "newTok")).auth.accessTokenMemory
      = some "newTok" ∧
    withBearer "newTok" ⟨2, "/api/gmail/emails", true, none⟩
      ∈ (clientRun (fun _ => none) 0 initialClientState
          (singleFlightEvents ⟨1, "/api/gmail/mailboxes", false, none⟩
            [⟨2, "/api/gmail/emails", false, none⟩] "newTok")).resubmissions := by
  have h := c1_single_flight_refresh (fun _ => none) 0 initialClientState
    ⟨1, "/api/gmail/mailboxes", false, none⟩
    [⟨2, "/api/gmail/emails", false, none⟩] "newTok"
    rfl (by refine ⟨rfl, ?_⟩; decide) (by decide)
  refine ⟨h.2.1, h.2.2.1, ?_⟩
  exact h.2.2.2.2.2 ⟨2, "/api/gmail/emails", false, none⟩ (by simp)

end GmailKanban
